import Mathlib

/-!
Shallow embedding of `aqua_license_util.py` (aquasec-license-util, version 0.4.0).

Python dicts are modelled as association lists `List (String × _)` (lookup =
first matching key), dict/JSON values as the inductive `PyVal`, fallible
external queries as `Except String _`, and the stateful argument-scanning loop
of `main` as a structural recursion over the token list.  Output channels
(stdout / debug prints) are modelled as explicit lists of strings or action
traces.  Machine integers are `Int` (Python ints are unbounded, so no modular
arithmetic is needed).
-/

namespace AquaLicenseUtil

/-- A Python scalar value as it appears in the license JSON records:
an int, a bool, or a string.  (Python bools are `isinstance(_, int)`, but a
bool never compares equal to `-1`, which the embedding reflects by keeping
the constructors separate.) -/
inductive PyVal where
  | pint (i : Int)
  | pbool (b : Bool)
  | pstr (s : String)
deriving Repr, DecidableEq

/-- The enforcer-count record returned by the enforcer-count queries, with the
six keys used by `license_count` and spread into breakdown rows
(`**enforcer_count_by_scope[key]`). -/
structure EnforcerCounts where
  agent : Int
  kube_enforcer : Int
  host_enforcer : Int
  micro_enforcer : Int
  nano_enforcer : Int
  pod_enforcer : Int
deriving Repr, DecidableEq

/-- The all-zero fallback enforcer record built in the `except` branch of
`license_count` (source lines 177-184). -/
def zeroEnforcers : EnforcerCounts := ⟨0, 0, 0, 0, 0, 0⟩

/-! ## `license_show` (source lines 50-114): totals mode -/

/-- The part of the `get_all_licenses` payload that `license_show` reads:
`resources.active_production` (an association list of field/value pairs) and
`details.num_active`. -/
structure AllLicensesData where
  active_production : List (String × PyVal)
  num_active : Int
deriving Repr, DecidableEq

/-- JSON branch of `license_show` (source lines 100-112): copy every field of
`active_production`, converting an int value `-1` to the string `"unlimited"`
unless the key is `dta_repos`, then append `num_active`. -/
def licenseShowTotals (active_production : List (String × PyVal))
    (num_active : Int) : List (String × PyVal) :=
  (active_production.map (fun kv =>
    if kv.2 = PyVal.pint (-1) ∧ kv.1 ≠ "dta_repos"
    then (kv.1, PyVal.pstr "unlimited")
    else (kv.1, kv.2)))
  ++ [("num_active", PyVal.pint num_active)]

/-- The function `license_show` as a whole, JSON mode: `get_all_licenses` returning `none`
models a falsy (`None` or empty) payload, upon which the function returns
immediately (`if not all_licenses_data: return`, source lines 54-55) producing
no output and no error object; otherwise it prints the totals. -/
def licenseShowRun (all_licenses_data : Option AllLicensesData) :
    Option (List (String × PyVal)) :=
  match all_licenses_data with
  | none => none
  | some d => some (licenseShowTotals d.active_production d.num_active)

/-! ## `license_count` (source lines 117-254): utilization mode -/

/-- The `utilization['usage']` record built at source lines 187-202. -/
structure Usage where
  repositories : Int
  code_repositories : Int
  functions : Int
  enforcers : Int
  kube_enforcers : Int
  host_enforcers : Int
  micro_enforcers : Int
  nano_enforcers : Int
  pod_enforcers : Int
  vm_enforcers : Int
  protected_kube_nodes : Int
deriving Repr, DecidableEq

/-- Data-acquisition phase of `license_count` (source lines 131-202), after the
license limits have been fetched.  Each of the four usage queries may raise
(`Except.error`); each `try/except` substitutes zero (or the all-zero enforcer
record) and records a debug-channel note.  Returns the assembled usage record
together with the accumulated debug notes. -/
def licenseCountData (repoRes codeRepoRes funcRes : Except String Int)
    (enfRes : Except String EnforcerCounts) : Usage × List String :=
  let total_repos := match repoRes with
    | .ok v => (v, ([] : List String))
    | .error e => (0, ["DEBUG: Failed to get repository count: " ++ e])
  let total_code_repos := match codeRepoRes with
    | .ok v => (v, ([] : List String))
    | .error e => (0, ["DEBUG: Code repository counting not available: " ++ e])
  let total_functions := match funcRes with
    | .ok v => (v, ([] : List String))
    | .error e => (0, ["DEBUG: Functions counting not available: " ++ e])
  let total_enforcers := match enfRes with
    | .ok v => (v, ([] : List String))
    | .error e =>
        (zeroEnforcers, ["DEBUG: Failed to get enforcer counts: " ++ e])
  ({ repositories := total_repos.1
     code_repositories := total_code_repos.1
     functions := total_functions.1
     enforcers := total_enforcers.1.agent
     kube_enforcers := total_enforcers.1.kube_enforcer
     host_enforcers := total_enforcers.1.host_enforcer
     micro_enforcers := total_enforcers.1.micro_enforcer
     nano_enforcers := total_enforcers.1.nano_enforcer
     pod_enforcers := total_enforcers.1.pod_enforcer
     vm_enforcers := total_enforcers.1.host_enforcer
     protected_kube_nodes := total_enforcers.1.kube_enforcer },
   total_repos.2 ++ total_code_repos.2 ++ total_functions.2
     ++ total_enforcers.2)

/-- Each debug note in `license_count` is printed under `if debug:` only: with
debug off, nothing reaches any output channel. -/
def licenseCountDebugOutput (debug : Bool) (notes : List String) :
    List String :=
  if debug then notes else []

/-- Limit resolution for a table row of `license_count` (source lines
224-228): a `None` limit key is treated as limit `-1` (unlimited); otherwise
the limit is looked up in the licenses record, defaulting to `0`. -/
def resolveLimit (licenses : List (String × Int)) (limit_key : Option String) :
    Int :=
  match limit_key with
  | none => -1
  | some k => (List.lookup k licenses).getD 0

/-- Rendering of a percentage value scaled by ten (one fixed decimal digit),
as produced by the `:.1f` format: integer part, `.`, tenths digit, `%`. -/
def fmtPct1 (p10 : Int) : String :=
  toString (p10 / 10) ++ "." ++ toString (p10 % 10) ++ "%"

/-- Nearest-integer division with ties to even: for `d > 0`, the integer
nearest to `n / d`, choosing the even candidate at an exact half (see
`divNearestEven_spec`).  This is the rounding of every stage of IEEE-754
binary64 arithmetic and of CPython's correctly rounded float formatting. -/
def divNearestEven (n d : Int) : Int :=
  if 2 * (n % d) < d then n / d
  else if d < 2 * (n % d) then n / d + 1
  else if (n / d) % 2 = 0 then n / d else n / d + 1

/-- Fuel-driven floor base-2 logarithm on naturals, written with structural
recursion so that it evaluates by kernel reduction. -/
def natLog2F : Nat → Nat → Nat
  | 0, _ => 0
  | fuel + 1, n => if n ≤ 1 then 0 else natLog2F fuel (n / 2) + 1

/-- Floor base-2 logarithm of a natural number (`0` for `n ≤ 1`). -/
def natLog2 (n : Nat) : Nat := natLog2F n n

/-- Floor base-2 logarithm of the positive quotient `a / b`: the unique `e`
with `2 ^ e ≤ a / b < 2 ^ (e + 1)`, found by comparing against the candidate
`natLog2 a - natLog2 b`. -/
def ratFloorLog2 (a b : Nat) : Int :=
  let d : Int := (natLog2 a : Int) - (natLog2 b : Int)
  if 0 ≤ d then (if (b : Int) * 2 ^ d.toNat ≤ (a : Int) then d else d - 1)
  else (if (b : Int) ≤ (a : Int) * 2 ^ (-d).toNat then d else d - 1)

/-- The IEEE-754 binary64 value of the quotient `a / b` (`b > 0`),
represented exactly as a pair `(m, e)` denoting `m * 2 ^ e`: the significand
is obtained by scaling `|a| / b` into `[2^52, 2^53)` and rounding to nearest,
ties to even — the correctly rounded double that CPython's int true division
`used / limit` produces.  The exponent is unbounded (no overflow or
underflow), which coincides with binary64 throughout its normal range and in
particular on every count reachable here. -/
def floatOfQuot (a b : Int) : Int × Int :=
  if a = 0 then (0, 0)
  else
    let n := a.natAbs
    let d := b.natAbs
    let e := ratFloorLog2 n d
    let s := 52 - e
    let m :=
      if 0 ≤ s then divNearestEven ((n : Int) * 2 ^ s.toNat) (d : Int)
      else divNearestEven (n : Int) ((d : Int) * 2 ^ (-s).toNat)
    (if a < 0 then -m else m, e - 52)

/-- Binary64 multiplication of the double `(m, e)` by the exact constant
`100` (the `* 100` of source line 238), correctly rounded: the exact product
`m * 100 * 2 ^ e` is re-rounded to 53 significant bits. -/
def floatMul100 (me : Int × Int) : Int × Int :=
  if 0 ≤ me.2 then floatOfQuot (me.1 * 100 * 2 ^ me.2.toNat) 1
  else floatOfQuot (me.1 * 100) (2 ^ (-me.2).toNat)

/-- CPython's `:.1f` digit computation on the exact value of the double
`(m, e)`: the count of tenths, correctly rounded to nearest with ties to
even (an exact tie occurs for doubles such as `6.25`). -/
def floatTenths (me : Int × Int) : Int :=
  if 0 ≤ me.2 then me.1 * 10 * 2 ^ me.2.toNat
  else divNearestEven (me.1 * 10) (2 ^ (-me.2).toNat)

/-- The tenths-of-a-percent integer printed by
`f"{(used / limit * 100):.1f}%"` (source line 238): binary64 true division
`used / limit`, binary64 multiplication by `100`, then correctly rounded
one-decimal formatting of the resulting double. -/
def pctTenthsFloat (used limit : Int) : Int :=
  floatTenths (floatMul100 (floatOfQuot used limit))

/-- Utilization-percentage cell of a `license_count` table row (source lines
232-240): `-1` renders `"-"`; a positive limit renders the `:.1f` formatting
of the IEEE-754 double evaluation of `used / limit * 100`; any other limit
(in particular `0`) renders `"-"`. -/
def utilPctString (used limit : Int) : String :=
  if limit = -1 then "-"
  else if limit > 0 then fmtPct1 (pctTenthsFloat used limit)
  else "-"

/-! ## `license_breakdown` (source lines 257-358): scope-breakdown mode -/

/-- A row of `breakdown_data` (source lines 318-323): scope name, repo count,
code-repo count, and the six enforcer-count fields spread from
`enforcer_count_by_scope[key]`. -/
structure BreakdownRow where
  scope_name : String
  repos : Int
  code_repos : Int
  agent : Int
  kube_enforcer : Int
  host_enforcer : Int
  micro_enforcer : Int
  nano_enforcer : Int
  pod_enforcer : Int
deriving Repr, DecidableEq

/-- Assemble one breakdown row from its parts. -/
def mkBreakdownRow (key : String) (repos code_repos : Int)
    (e : EnforcerCounts) : BreakdownRow :=
  ⟨key, repos, code_repos, e.agent, e.kube_enforcer, e.host_enforcer,
   e.micro_enforcer, e.nano_enforcer, e.pod_enforcer⟩

/-- The join loop of `license_breakdown` (source lines 314-323): iterate over
`repo_count_by_scope.items()`; a row is produced for a key only `if key in
enforcer_count_by_scope`, and its `code_repos` field is
`code_repo_count_by_scope.get(key, 0)`. -/
def buildBreakdown (repo_count_by_scope : List (String × Int))
    (enforcer_count_by_scope : List (String × EnforcerCounts))
    (code_repo_count_by_scope : List (String × Int)) :
    List (String × BreakdownRow) :=
  repo_count_by_scope.filterMap (fun kv =>
    match List.lookup kv.1 enforcer_count_by_scope with
    | some e =>
        some (kv.1,
          mkBreakdownRow kv.1 kv.2
            ((List.lookup kv.1 code_repo_count_by_scope).getD 0) e)
    | none => none)

/-- The data-gathering and join phase of `license_breakdown` (source lines
284-323), parameterised by the external per-scope count queries.  With
`skip_repos` set, the repo and code-repo maps are built locally as constant-0
maps over `scopes_list` and the query parameters are not consulted; the
enforcer query is performed unconditionally.  `codeQueryAvailable` models the
`get_code_repo_count_by_scope is not None` feature test (source line 305),
whose `else` branch uses an empty map. -/
def licenseBreakdownData (scopes_list : List String)
    (skip_repos codeQueryAvailable : Bool)
    (getRepoCounts getCodeCounts : List String → List (String × Int))
    (getEnfCounts : List String → List (String × EnforcerCounts)) :
    List (String × BreakdownRow) :=
  let repo_count_by_scope :=
    if skip_repos then scopes_list.map (fun s => (s, (0 : Int)))
    else getRepoCounts scopes_list
  let enforcer_count_by_scope := getEnfCounts scopes_list
  let code_repo_count_by_scope :=
    if skip_repos then scopes_list.map (fun s => (s, (0 : Int)))
    else if codeQueryAvailable then getCodeCounts scopes_list
    else []
  buildBreakdown repo_count_by_scope enforcer_count_by_scope
    code_repo_count_by_scope

/-! ## Argument preprocessing in `main` (source lines 368-398) -/

/-- The `global_args` record initialised at source lines 372-376 and mutated
by the scanning loop. -/
structure GlobalArgs where
  verbose : Bool
  debug : Bool
  profile : String
deriving Repr, DecidableEq

/-- Initial global arguments: `{'verbose': False, 'debug': False,
'profile': 'default'}`. -/
def initGlobalArgs : GlobalArgs := ⟨false, false, "default"⟩

/-- The `while i < len(raw_args)` scanning loop (source lines 384-398):
verbose/debug flags set the corresponding field and are dropped; a profile
flag consumes the following token as the profile value when one exists
(`if i + 1 < len(raw_args)`, source line 393) and is dropped silently when it
is the last token; any other token is appended to `filtered_args` in order. -/
def extractGlobalFlags : List String → GlobalArgs → GlobalArgs × List String
  | [], g => (g, [])
  | a :: rest, g =>
    if a = "-v" ∨ a = "--verbose" then
      extractGlobalFlags rest { g with verbose := true }
    else if a = "-d" ∨ a = "--debug" then
      extractGlobalFlags rest { g with debug := true }
    else if a = "-p" ∨ a = "--profile" then
      match rest with
      | v :: rest2 => extractGlobalFlags rest2 { g with profile := v }
      | [] => extractGlobalFlags [] g
    else
      let r := extractGlobalFlags rest g
      (r.1, a :: r.2)

/-- The whole argument preprocessor: scan `raw_args` starting from the
default global arguments. -/
def preprocess (raw_args : List String) : GlobalArgs × List String :=
  extractGlobalFlags raw_args initGlobalArgs

/-- The six recognised global-flag tokens. -/
def globalFlagTokens : List String :=
  ["-v", "--verbose", "-d", "--debug", "-p", "--profile"]

/-- The tokens the scanning loop actually examines as flags: every token
except those consumed as the value of an immediately preceding profile flag.
(A specification device for stating which occurrences of a flag token take
effect; it mirrors the index advancement of the loop.) -/
def scannedTokens : List String → List String
  | [] => []
  | a :: rest =>
    if a = "-p" ∨ a = "--profile" then
      a :: (match rest with
            | [] => []
            | _ :: rest2 => scannedTokens rest2)
    else a :: scannedTokens rest

/-! ## Reporting-command preflight in `main` (source lines 560-640) -/

/-- Externally observable steps of `main` between command dispatch and the
command body. -/
inductive MainAction where
  | authCall
  | reportError (msg : String)
  | runCommand
deriving Repr, DecidableEq

/-- Preflight sequence of `main` for a reporting command (source lines
572-616), returning the action trace and the exit code (`none` = continue
into the command body).  Credentials are checked first (`AQUA_USER`, line
573); `authenticate` is then called (line 598); only after authentication
does `main` read `CSP_ENDPOINT` (line 609) and report its absence. -/
def reportingPreflight (hasCreds authOk : Bool)
    (cspEndpoint : Option String) : List MainAction × Option Nat :=
  if ¬hasCreds then
    ([MainAction.reportError
        "No credentials found. Run 'setup' command or set environment variables."],
     some 1)
  else if ¬authOk then
    ([MainAction.authCall, MainAction.reportError "Authentication failed"],
     some 1)
  else
    match cspEndpoint with
    | none =>
        ([MainAction.authCall,
          MainAction.reportError "CSP_ENDPOINT environment variable not set"],
         some 1)
    | some _ => ([MainAction.authCall, MainAction.runCommand], none)

/-! ## Helper lemmas -/

/-- The division `divNearestEven n d` (for `d > 0`) returns an integer `q`
with `|n - d * q| ≤ d / 2`, and at an exact half (`|n - d * q| = d / 2`) the
returned `q` is even: rounding to nearest, ties to even. -/
theorem divNearestEven_spec (n d : Int) (hd : 0 < d) :
    (-d ≤ 2 * (n - d * divNearestEven n d)
      ∧ 2 * (n - d * divNearestEven n d) ≤ d)
    ∧ ((2 * (n - d * divNearestEven n d) = d
        ∨ 2 * (n - d * divNearestEven n d) = -d)
      → divNearestEven n d % 2 = 0) := by
  have hd0 : d ≠ 0 := hd.ne'
  have hr0 : 0 ≤ n % d := Int.emod_nonneg n hd0
  have hrd : n % d < d := Int.emod_lt_of_pos n hd
  have hdef : n % d = n - d * (n / d) := Int.emod_def n d
  have e1 : n - d * (n / d) = n % d := hdef.symm
  have e2 : n - d * (n / d + 1) = n % d - d := by
    rw [mul_add, mul_one]
    linarith [hdef]
  unfold divNearestEven
  split_ifs with h1 h2 h3
  · rw [e1]
    exact ⟨⟨by linarith, by linarith⟩, fun h => by omega⟩
  · rw [e2]
    exact ⟨⟨by linarith, by linarith⟩, fun h => by
      rcases h with h | h <;> omega⟩
  · rw [e1]
    exact ⟨⟨by linarith, by linarith⟩, fun _ => h3⟩
  · rw [e2]
    exact ⟨⟨by linarith, by linarith⟩, fun _ => by omega⟩

/-- Looking anything up in a constant-zero association map and defaulting to
zero yields zero. -/
theorem lookup_const_zero_getD (k : String) (scopes : List String) :
    (List.lookup k (scopes.map (fun s => (s, (0 : Int))))).getD 0 = 0 := by
  induction scopes with
  | nil => rfl
  | cons a rest ih =>
      by_cases h : k = a
      · subst h
        simp [List.lookup]
      · have hba : (k == a) = false := beq_eq_false_iff_ne.mpr h
        simpa [List.lookup, hba] using ih

/-! ## C1: scope-breakdown inner join -/

/-- C1: in `license_breakdown`, a scope has a row in `breakdown_data` iff it
has an entry in `repo_count_by_scope` and an entry in
`enforcer_count_by_scope`; rows for scopes missing from the code-repo map get
`code_repos = 0`. -/
theorem c1_breakdown_inner_join :
    ∀ (repoCounts : List (String × Int))
      (enfCounts : List (String × EnforcerCounts))
      (codeCounts : List (String × Int)) (s : String),
      ((∃ r, (s, r) ∈ buildBreakdown repoCounts enfCounts codeCounts)
        ↔ (∃ v, (s, v) ∈ repoCounts)
          ∧ (List.lookup s enfCounts).isSome = true)
      ∧ (∀ r, (s, r) ∈ buildBreakdown repoCounts enfCounts codeCounts →
          List.lookup s codeCounts = none → r.code_repos = 0) := by
  intro repoCounts enfCounts codeCounts s
  constructor
  · constructor
    · rintro ⟨r, hr⟩
      rw [buildBreakdown, List.mem_filterMap] at hr
      obtain ⟨⟨k, v⟩, hkv, hf⟩ := hr
      cases h : List.lookup k enfCounts with
      | none => simp [h] at hf
      | some e =>
          simp only [h] at hf
          obtain ⟨hk, -⟩ := Prod.mk.injEq .. ▸ Option.some.injEq .. ▸ hf
          refine ⟨⟨v, ?_⟩, ?_⟩
          · exact hk ▸ hkv
          · rw [← hk, h]; rfl
    · rintro ⟨⟨v, hv⟩, hsome⟩
      obtain ⟨e, he⟩ := Option.isSome_iff_exists.mp hsome
      refine ⟨mkBreakdownRow s v ((List.lookup s codeCounts).getD 0) e, ?_⟩
      rw [buildBreakdown, List.mem_filterMap]
      exact ⟨(s, v), hv, by simp [he]⟩
  · intro r hr hnone
    rw [buildBreakdown, List.mem_filterMap] at hr
    obtain ⟨⟨k, v⟩, hkv, hf⟩ := hr
    cases h : List.lookup k enfCounts with
    | none => simp [h] at hf
    | some e =>
        simp only [h, Option.some.injEq, Prod.mk.injEq] at hf
        obtain ⟨hk, hr'⟩ := hf
        subst hk
        rw [← hr', mkBreakdownRow]
        simp [hnone]

/-- Witness for C1 at a concrete input: scope `"a"` is present in both the
repo map and the enforcer map but absent from the code-repo map, and its row
carries `code_repos = 0`. -/
theorem c1_breakdown_inner_join_witness :
    (mkBreakdownRow "a" 3 0 zeroEnforcers).code_repos = 0 :=
  (c1_breakdown_inner_join [("a", 3)] [("a", zeroEnforcers)] [] "a").2
    (mkBreakdownRow "a" 3 0 zeroEnforcers) (by decide) rfl

/-! ## C2: utilization percentage rendering -/

/-- C2 as stated is false: the program renders the `:.1f` formatting of the
IEEE-754 double value of `used / limit * 100` (ties to even on the double's
exact value), not the exact rational rounded to one decimal place.  At
`(used=1, limit=16)` the exact percentage `6.25` rounds (halves upward) to
`6.3`, but the program prints `"6.2%"` (the double `6.25` is an exact
decimal tie, resolved to even); and at `(used=1, limit=2000)` the exact
percentage `0.05` rounds half-to-even to `0.0`, but the double
`1 / 2000 * 100` lies just above the tie and the program prints `"0.1%"`.
So no exact-rational one-decimal rounding of `used/limit*100` matches the
rendered percentage. -/
theorem c2_utilization_percentage_counterexample :
    utilPctString 1 16 = "6.2%"
    ∧ fmtPct1 (round ((1 : ℚ) * 1000 / (16 : ℚ))) = "6.3%"
    ∧ ("6.2%" : String) ≠ "6.3%"
    ∧ utilPctString 1 2000 = "0.1%"
    ∧ fmtPct1 (divNearestEven (1 * 1000) 2000) = "0.0%"
    ∧ ("0.1%" : String) ≠ "0.0%" := by
  refine ⟨by decide, ?_, by decide, by decide, by decide, by decide⟩
  have h1 : ((1 : ℚ) * 1000 / (16 : ℚ)) = 125 / 2 := by norm_num
  have h2 : round ((125 : ℚ) / 2) = 63 := by
    rw [round_eq]
    have h3 : ((125 : ℚ) / 2 + 1 / 2) = ((63 : ℤ) : ℚ) := by norm_num
    rw [h3, Int.floor_intCast]
  rw [h1, h2]
  decide

/-- C2 amended: a `None` limit key resolves to `-1` (unlimited) regardless
of API data; limit `-1` renders `"-"` for any used count; limit `0` renders
`"-"`; a positive limit renders the `:.1f` formatting of the binary64
evaluation of `used / limit * 100` — one decimal place, with the division,
the multiplication and the final decimal digit each rounded to nearest, ties
to even — so `(used=50, limit=200)` renders exactly `"25.0%"`, while at
decimal ties the float semantics decides: `(1, 16)` renders `"6.2%"` and
`(1, 2000)` renders `"0.1%"`. -/
theorem c2_utilization_percentage_amended :
    ∀ (licenses : List (String × Int)) (used : Int),
      resolveLimit licenses none = -1
      ∧ utilPctString used (-1) = "-"
      ∧ utilPctString used 0 = "-"
      ∧ (∀ limit : Int, 0 < limit →
          utilPctString used limit
            = fmtPct1 (floatTenths (floatMul100 (floatOfQuot used limit))))
      ∧ utilPctString 50 200 = "25.0%"
      ∧ utilPctString 1 16 = "6.2%"
      ∧ utilPctString 1 2000 = "0.1%" := by
  intro licenses used
  refine ⟨rfl, rfl, rfl, ?_, by decide, by decide, by decide⟩
  intro limit h
  have hne : ¬(limit = -1) := by omega
  rw [utilPctString, if_neg hne, if_pos h, pctTenthsFloat]

/-- Witness for the amended C2 at the concrete row `(used=50, limit=200)`. -/
theorem c2_utilization_percentage_amended_witness :
    utilPctString 50 200
      = fmtPct1 (floatTenths (floatMul100 (floatOfQuot 50 200))) :=
  (c2_utilization_percentage_amended [] 50).2.2.2.1 200 (by norm_num)

/-! ## C3: totals mode, -1 to "unlimited" translation -/

/-- C3: in the JSON branch of `license_show`, every `active_production` field
whose value is the integer `-1` is emitted as the string `"unlimited"`,
except the `dta_repos` key, which is copied verbatim; fields whose value is
not `-1` are copied unchanged. -/
theorem c3_show_unlimited_translation :
    ∀ (ap : List (String × PyVal)) (num_active : Int) (k : String) (v : PyVal),
      (k, v) ∈ ap →
        ((v = PyVal.pint (-1) → k ≠ "dta_repos" →
            (k, PyVal.pstr "unlimited") ∈ licenseShowTotals ap num_active)
        ∧ (k = "dta_repos" → (k, v) ∈ licenseShowTotals ap num_active)
        ∧ (v ≠ PyVal.pint (-1) → (k, v) ∈ licenseShowTotals ap num_active)) := by
  intro ap n k v hm
  refine ⟨?_, ?_, ?_⟩
  · intro h1 h2
    rw [licenseShowTotals]
    refine List.mem_append_left _ ?_
    have := List.mem_map_of_mem
      (f := fun kv : String × PyVal =>
        if kv.2 = PyVal.pint (-1) ∧ kv.1 ≠ "dta_repos"
        then (kv.1, PyVal.pstr "unlimited") else (kv.1, kv.2)) hm
    simpa [h1, h2] using this
  · intro h1
    rw [licenseShowTotals]
    refine List.mem_append_left _ ?_
    have := List.mem_map_of_mem
      (f := fun kv : String × PyVal =>
        if kv.2 = PyVal.pint (-1) ∧ kv.1 ≠ "dta_repos"
        then (kv.1, PyVal.pstr "unlimited") else (kv.1, kv.2)) hm
    simpa [h1] using this
  · intro h1
    rw [licenseShowTotals]
    refine List.mem_append_left _ ?_
    have := List.mem_map_of_mem
      (f := fun kv : String × PyVal =>
        if kv.2 = PyVal.pint (-1) ∧ kv.1 ≠ "dta_repos"
        then (kv.1, PyVal.pstr "unlimited") else (kv.1, kv.2)) hm
    simpa [h1] using this

/-- Witness for C3 at a concrete record: a `-1`-valued limit field is emitted
as `"unlimited"`. -/
theorem c3_show_unlimited_translation_witness :
    ("num_repositories", PyVal.pstr "unlimited")
      ∈ licenseShowTotals [("num_repositories", PyVal.pint (-1))] 2 :=
  (c3_show_unlimited_translation [("num_repositories", PyVal.pint (-1))] 2
      "num_repositories" (PyVal.pint (-1)) (by simp)).1 rfl (by decide)

/-! ## C8, C9, C10: error degradation, empty totals, alias fields -/

/-- C8: in `license_count`, a failing usage query is replaced by zero (or the
all-zero enforcer record) while all other sources keep their values — the
result equals the run in which that source succeeded with the zero value —
and the failure note reaches no output channel unless debug is on. -/
theorem c8_failing_query_degrades :
    ∀ (msg : String) (r c f : Int) (en : EnforcerCounts),
      ((licenseCountData (Except.error msg) (Except.ok c) (Except.ok f)
          (Except.ok en)).1
        = (licenseCountData (Except.ok 0) (Except.ok c) (Except.ok f)
            (Except.ok en)).1)
      ∧ ((licenseCountData (Except.ok r) (Except.error msg) (Except.ok f)
          (Except.ok en)).1
        = (licenseCountData (Except.ok r) (Except.ok 0) (Except.ok f)
            (Except.ok en)).1)
      ∧ ((licenseCountData (Except.ok r) (Except.ok c) (Except.error msg)
          (Except.ok en)).1
        = (licenseCountData (Except.ok r) (Except.ok c) (Except.ok 0)
            (Except.ok en)).1)
      ∧ ((licenseCountData (Except.ok r) (Except.ok c) (Except.ok f)
          (Except.error msg)).1
        = (licenseCountData (Except.ok r) (Except.ok c) (Except.ok f)
            (Except.ok zeroEnforcers)).1)
      ∧ (∀ notes, licenseCountDebugOutput false notes = [])
      ∧ (∀ notes, licenseCountDebugOutput true notes = notes) := by
  intro msg r c f en
  exact ⟨rfl, rfl, rfl, rfl, fun _ => rfl, fun _ => rfl⟩

/-- C9: `license_show` with an absent/empty all-licenses payload produces no
output at all — no exception and no error object — while a present payload
produces totals output. -/
theorem c9_show_empty_silent :
    licenseShowRun none = none
    ∧ ∀ d, (licenseShowRun (some d)).isSome = true := by
  exact ⟨rfl, fun _ => rfl⟩

/-- C10: in the usage record of `license_count`, `vm_enforcers` always equals
`host_enforcers` and `protected_kube_nodes` always equals `kube_enforcers`. -/
theorem c10_alias_fields :
    ∀ (repoRes codeRepoRes funcRes : Except String Int)
      (enfRes : Except String EnforcerCounts),
      ((licenseCountData repoRes codeRepoRes funcRes enfRes).1.vm_enforcers
        = (licenseCountData repoRes codeRepoRes funcRes
            enfRes).1.host_enforcers)
      ∧ ((licenseCountData repoRes codeRepoRes funcRes
            enfRes).1.protected_kube_nodes
        = (licenseCountData repoRes codeRepoRes funcRes
            enfRes).1.kube_enforcers) := by
  intro repoRes codeRepoRes funcRes enfRes
  exact ⟨rfl, rfl⟩

/-! ## Preprocessor lemmas -/

/-- Scanning an empty token list returns the state unchanged. -/
theorem extract_nil (g : GlobalArgs) : extractGlobalFlags [] g = (g, []) := rfl

/-- A verbose flag token sets `verbose` and is dropped. -/
theorem extract_verbose_tok {a : String} (rest : List String) (g : GlobalArgs)
    (h : a = "-v" ∨ a = "--verbose") :
    extractGlobalFlags (a :: rest) g
      = extractGlobalFlags rest { g with verbose := true } := by
  rw [extractGlobalFlags.eq_def]
  simp [h]

/-- A debug flag token sets `debug` and is dropped. -/
theorem extract_debug_tok {a : String} (rest : List String) (g : GlobalArgs)
    (h1 : ¬(a = "-v" ∨ a = "--verbose")) (h2 : a = "-d" ∨ a = "--debug") :
    extractGlobalFlags (a :: rest) g
      = extractGlobalFlags rest { g with debug := true } := by
  rw [extractGlobalFlags.eq_def]
  rcases h2 with rfl | rfl <;> simp

/-- A profile flag token followed by a value consumes both and sets
`profile` to the value. -/
theorem extract_profile_tok {a : String} (v : String) (rest2 : List String)
    (g : GlobalArgs) (h3 : a = "-p" ∨ a = "--profile") :
    extractGlobalFlags (a :: v :: rest2) g
      = extractGlobalFlags rest2 { g with profile := v } := by
  rw [extractGlobalFlags.eq_def]
  rcases h3 with rfl | rfl <;> simp

/-- A profile flag token in final position is dropped without touching the
state: the `i + 1 < len(raw_args)` bounds check fails and the loop ends. -/
theorem extract_profile_last {a : String} (g : GlobalArgs)
    (h3 : a = "-p" ∨ a = "--profile") :
    extractGlobalFlags [a] g = (g, []) := by
  rw [extractGlobalFlags.eq_def]
  rcases h3 with rfl | rfl <;> simp [extract_nil]

/-- A non-flag token is appended to the filtered list. -/
theorem extract_other {a : String} (rest : List String) (g : GlobalArgs)
    (h1 : ¬(a = "-v" ∨ a = "--verbose")) (h2 : ¬(a = "-d" ∨ a = "--debug"))
    (h3 : ¬(a = "-p" ∨ a = "--profile")) :
    extractGlobalFlags (a :: rest) g
      = ((extractGlobalFlags rest g).1, a :: (extractGlobalFlags rest g).2) := by
  rw [extractGlobalFlags.eq_def]
  simp [h1, h2, h3]

/-- Unfolding `scannedTokens` on the empty list. -/
theorem scanned_nil : scannedTokens [] = [] := rfl

/-- After a profile flag with a following value, scanning resumes past the
value. -/
theorem scanned_profile_cons {a : String} (v : String) (rest2 : List String)
    (h : a = "-p" ∨ a = "--profile") :
    scannedTokens (a :: v :: rest2) = a :: scannedTokens rest2 := by
  rw [scannedTokens.eq_def]
  rcases h with rfl | rfl <;> simp

/-- A trailing profile flag is itself scanned. -/
theorem scanned_profile_last {a : String} (h : a = "-p" ∨ a = "--profile") :
    scannedTokens [a] = [a] := by
  rw [scannedTokens.eq_def]
  rcases h with rfl | rfl <;> simp

/-- A non-profile token is scanned and scanning continues with the rest. -/
theorem scanned_other {a : String} (rest : List String)
    (h : ¬(a = "-p" ∨ a = "--profile")) :
    scannedTokens (a :: rest) = a :: scannedTokens rest := by
  rw [scannedTokens.eq_def]
  simp [h]

/-- The scan sets `verbose` exactly when a verbose flag token occurs at a
scanned (non-profile-value) position. -/
theorem extract_verbose_iff :
    ∀ (args : List String) (g : GlobalArgs),
      ((extractGlobalFlags args g).1.verbose = true ↔
        g.verbose = true ∨ "-v" ∈ scannedTokens args
          ∨ "--verbose" ∈ scannedTokens args) := by
  intro args g
  induction args, g using extractGlobalFlags.induct with
  | case1 g => simp [extract_nil, scanned_nil]
  | case2 a rest g h ih =>
      rw [extract_verbose_tok rest g h]
      have hnp : ¬(a = "-p" ∨ a = "--profile") := by
        rcases h with rfl | rfl <;> simp
      rw [scanned_other rest hnp]
      rcases h with rfl | rfl <;> simp [ih]
  | case3 a rest g h1 h2 ih =>
      rw [extract_debug_tok rest g h1 h2]
      have hnp : ¬(a = "-p" ∨ a = "--profile") := by
        rcases h2 with rfl | rfl <;> simp
      rw [scanned_other rest hnp]
      have hav : a ≠ "-v" ∧ a ≠ "--verbose" := by
        rcases h2 with rfl | rfl <;> simp
      simp [ih, Ne.symm hav.1, Ne.symm hav.2]
  | case4 a g h1 h2 h3 v rest2 ih =>
      rw [extract_profile_tok v rest2 g h3, scanned_profile_cons v rest2 h3]
      have hav : a ≠ "-v" ∧ a ≠ "--verbose" := by
        rcases h3 with rfl | rfl <;> simp
      simp [ih, Ne.symm hav.1, Ne.symm hav.2]
  | case5 a g h1 h2 h3 ih =>
      rw [extract_profile_last g h3, scanned_profile_last h3]
      have hav : a ≠ "-v" ∧ a ≠ "--verbose" := by
        rcases h3 with rfl | rfl <;> simp
      simp [Ne.symm hav.1, Ne.symm hav.2]
  | case6 a rest g h1 h2 h3 ih =>
      rw [extract_other rest g h1 h2 h3]
      rw [scanned_other rest h3]
      push_neg at h1
      simp [ih, Ne.symm h1.1, Ne.symm h1.2]

/-- The scan sets `debug` exactly when a debug flag token occurs at a
scanned (non-profile-value) position. -/
theorem extract_debug_iff :
    ∀ (args : List String) (g : GlobalArgs),
      ((extractGlobalFlags args g).1.debug = true ↔
        g.debug = true ∨ "-d" ∈ scannedTokens args
          ∨ "--debug" ∈ scannedTokens args) := by
  intro args g
  induction args, g using extractGlobalFlags.induct with
  | case1 g => simp [extract_nil, scanned_nil]
  | case2 a rest g h ih =>
      rw [extract_verbose_tok rest g h]
      have hnp : ¬(a = "-p" ∨ a = "--profile") := by
        rcases h with rfl | rfl <;> simp
      rw [scanned_other rest hnp]
      have had : a ≠ "-d" ∧ a ≠ "--debug" := by
        rcases h with rfl | rfl <;> simp
      simp [ih, Ne.symm had.1, Ne.symm had.2]
  | case3 a rest g h1 h2 ih =>
      rw [extract_debug_tok rest g h1 h2]
      have hnp : ¬(a = "-p" ∨ a = "--profile") := by
        rcases h2 with rfl | rfl <;> simp
      rw [scanned_other rest hnp]
      rcases h2 with rfl | rfl <;> simp [ih]
  | case4 a g h1 h2 h3 v rest2 ih =>
      rw [extract_profile_tok v rest2 g h3, scanned_profile_cons v rest2 h3]
      have had : a ≠ "-d" ∧ a ≠ "--debug" := by
        rcases h3 with rfl | rfl <;> simp
      simp [ih, Ne.symm had.1, Ne.symm had.2]
  | case5 a g h1 h2 h3 ih =>
      rw [extract_profile_last g h3, scanned_profile_last h3]
      have had : a ≠ "-d" ∧ a ≠ "--debug" := by
        rcases h3 with rfl | rfl <;> simp
      simp [Ne.symm had.1, Ne.symm had.2]
  | case6 a rest g h1 h2 h3 ih =>
      rw [extract_other rest g h1 h2 h3]
      rw [scanned_other rest h3]
      push_neg at h2
      simp [ih, Ne.symm h2.1, Ne.symm h2.2]

/-- The filtered token list is a subsequence of the input: original relative
order is preserved. -/
theorem extract_filtered_sublist :
    ∀ (args : List String) (g : GlobalArgs),
      List.Sublist (extractGlobalFlags args g).2 args := by
  intro args g
  induction args, g using extractGlobalFlags.induct with
  | case1 g => simp [extract_nil]
  | case2 a rest g h ih =>
      rw [extract_verbose_tok rest g h]
      exact ih.cons a
  | case3 a rest g h1 h2 ih =>
      rw [extract_debug_tok rest g h1 h2]
      exact ih.cons a
  | case4 a g h1 h2 h3 v rest2 ih =>
      rw [extract_profile_tok v rest2 g h3]
      exact (ih.cons v).cons a
  | case5 a g h1 h2 h3 ih =>
      rw [extract_profile_last g h3]
      simp
  | case6 a rest g h1 h2 h3 ih =>
      rw [extract_other rest g h1 h2 h3]
      exact ih.cons₂ a

/-- No recognised global-flag token survives into the filtered list. -/
theorem extract_filtered_no_flags :
    ∀ (args : List String) (g : GlobalArgs) (t : String),
      t ∈ (extractGlobalFlags args g).2 → ¬(t ∈ globalFlagTokens) := by
  intro args g
  induction args, g using extractGlobalFlags.induct with
  | case1 g => intro t ht; rw [extract_nil] at ht; simp at ht
  | case2 a rest g h ih =>
      intro t ht
      rw [extract_verbose_tok rest g h] at ht
      exact ih t ht
  | case3 a rest g h1 h2 ih =>
      intro t ht
      rw [extract_debug_tok rest g h1 h2] at ht
      exact ih t ht
  | case4 a g h1 h2 h3 v rest2 ih =>
      intro t ht
      rw [extract_profile_tok v rest2 g h3] at ht
      exact ih t ht
  | case5 a g h1 h2 h3 ih =>
      intro t ht
      rw [extract_profile_last g h3] at ht
      simp at ht
  | case6 a rest g h1 h2 h3 ih =>
      intro t ht
      rw [extract_other rest g h1 h2 h3] at ht
      rcases List.mem_cons.mp ht with rfl | ht'
      · push_neg at h1 h2 h3
        simp [globalFlagTokens, h1.1, h1.2, h2.1, h2.2, h3.1, h3.2]
      · exact ih t ht'

/-- When the only profile flag in the input is its final token, scanning
leaves the profile field untouched. -/
theorem extract_profile_of_trailing_flag :
    ∀ (front : List String) (g : GlobalArgs) (p : String),
      (p = "-p" ∨ p = "--profile") →
      (∀ t ∈ front, ¬(t = "-p" ∨ t = "--profile")) →
      (extractGlobalFlags (front ++ [p]) g).1.profile = g.profile := by
  intro front
  induction front with
  | nil =>
      intro g p hp _
      rw [List.nil_append, extract_profile_last g hp]
  | cons a rest ih =>
      intro g p hp hfront
      have ha : ¬(a = "-p" ∨ a = "--profile") := hfront a (by simp)
      have hrest : ∀ t ∈ rest, ¬(t = "-p" ∨ t = "--profile") := by
        intro t ht
        exact hfront t (by simp [ht])
      by_cases h1 : a = "-v" ∨ a = "--verbose"
      · rw [List.cons_append, extract_verbose_tok _ g h1]
        exact ih _ p hp hrest
      · by_cases h2 : a = "-d" ∨ a = "--debug"
        · rw [List.cons_append, extract_debug_tok _ g h1 h2]
          exact ih _ p hp hrest
        · rw [List.cons_append, extract_other _ g h1 h2 ha]
          exact ih _ p hp hrest

/-! ## C4: order-independent flag extraction -/

/-- C4 as stated is false: in `["-p", "-v"]` the verbose flag token `"-v"`
occurs in the sequence, but it is consumed as the profile flag's value
(source lines 392-395), so `verbose` remains `false` — refuting "verbose is
true if and only if a verbose flag token occurs anywhere in the sequence". -/
theorem c4_flag_extraction_counterexample :
    (preprocess ["-p", "-v"]).1.verbose = false
    ∧ "-v" ∈ ["-p", "-v"]
    ∧ (preprocess ["-p", "-v"]).1.profile = "-v" := by
  decide

/-- C4 amended: verbose (resp. debug) is set iff a verbose (resp. debug)
flag token occurs at a position the scan examines as a flag — i.e. anywhere
except as the consumed value of an immediately preceding profile flag; all
recognised global-flag tokens (and consumed profile values) are removed; the
filtered tokens keep their original relative order (a subsequence of the
input); and the four concrete examples behave as claimed. -/
theorem c4_flag_extraction_amended :
    ∀ (args : List String),
      ((preprocess args).1.verbose = true ↔
        "-v" ∈ scannedTokens args ∨ "--verbose" ∈ scannedTokens args)
      ∧ ((preprocess args).1.debug = true ↔
        "-d" ∈ scannedTokens args ∨ "--debug" ∈ scannedTokens args)
      ∧ List.Sublist (preprocess args).2 args
      ∧ (∀ t ∈ (preprocess args).2, ¬(t ∈ globalFlagTokens))
      ∧ preprocess ["-v", "show"]
          = ({ verbose := true, debug := false, profile := "default" },
             ["show"])
      ∧ preprocess ["show", "-v"]
          = ({ verbose := true, debug := false, profile := "default" },
             ["show"])
      ∧ (preprocess ["-p", "test", "show"]).1.profile = "test"
      ∧ (preprocess ["-p", "test", "show"]).2 = ["show"]
      ∧ (preprocess ["show", "-p", "test"]).1.profile = "test"
      ∧ (preprocess ["show", "-p", "test"]).2 = ["show"] := by
  intro args
  refine ⟨?_, ?_, extract_filtered_sublist args initGlobalArgs,
    extract_filtered_no_flags args initGlobalArgs,
    by decide, by decide, by decide, by decide, by decide, by decide⟩
  · have h := extract_verbose_iff args initGlobalArgs
    simpa [preprocess, initGlobalArgs] using h
  · have h := extract_debug_iff args initGlobalArgs
    simpa [preprocess, initGlobalArgs] using h

/-- Witness for the amended C4: the non-flag token of a concrete input
survives filtering and is not a global-flag token. -/
theorem c4_flag_extraction_amended_witness :
    ¬("show" ∈ globalFlagTokens) :=
  (c4_flag_extraction_amended ["show", "-v"]).2.2.2.1 "show" (by decide)

/-! ## C5: trailing profile flag -/

/-- C5: when the profile flag is the input's last token with no value after
it (and no earlier profile flag has set a value), the scan terminates
normally — the `i + 1 < len(raw_args)` bounds check simply fails — and the
profile keeps its prior default value `"default"`. -/
theorem c5_trailing_profile_flag :
    ∀ (front : List String) (p : String),
      (p = "-p" ∨ p = "--profile") →
      (∀ t ∈ front, ¬(t = "-p" ∨ t = "--profile")) →
      (preprocess (front ++ [p])).1.profile = "default" := by
  intro front p hp hfront
  exact extract_profile_of_trailing_flag front initGlobalArgs p hp hfront

/-- Witness for C5 at the concrete input `["show", "-p"]`. -/
theorem c5_trailing_profile_flag_witness :
    (preprocess (["show"] ++ ["-p"])).1.profile = "default" :=
  c5_trailing_profile_flag ["show"] "-p" (Or.inl rfl) (by decide)

/-! ## C6: --skip-repos -/

/-- C6: with `skip_repos` set, `license_breakdown` builds its repo and
code-repo maps locally (constant 0 over the known scopes) without consulting
the repo-count queries — the result does not depend on them — every resulting
row carries `repos = 0` and `code_repos = 0`, and each row's enforcer fields
are exactly the enforcer-count query's entry for that scope. -/
theorem c6_skip_repos :
    ∀ (scopes : List String) (ca ca' : Bool)
      (getRepo getCode getRepo' getCode' : List String → List (String × Int))
      (getEnf : List String → List (String × EnforcerCounts)),
      (licenseBreakdownData scopes true ca getRepo getCode getEnf
        = licenseBreakdownData scopes true ca' getRepo' getCode' getEnf)
      ∧ (∀ s r,
          (s, r) ∈ licenseBreakdownData scopes true ca getRepo getCode getEnf →
          r.repos = 0 ∧ r.code_repos = 0
            ∧ List.lookup s (getEnf scopes)
              = some ⟨r.agent, r.kube_enforcer, r.host_enforcer,
                  r.micro_enforcer, r.nano_enforcer, r.pod_enforcer⟩) := by
  intro scopes ca ca' getRepo getCode getRepo' getCode' getEnf
  constructor
  · rfl
  · intro s r hr
    rw [licenseBreakdownData] at hr
    simp only [if_pos rfl] at hr
    rw [buildBreakdown, List.mem_filterMap] at hr
    obtain ⟨kv, hkv, hf⟩ := hr
    obtain ⟨s0, hs0, rfl⟩ := List.mem_map.mp hkv
    cases h : List.lookup s0 (getEnf scopes) with
    | none => simp [h] at hf
    | some e =>
        simp only [h, Option.some.injEq, Prod.mk.injEq] at hf
        obtain ⟨hk, hr'⟩ := hf
        subst hk
        rw [← hr', mkBreakdownRow]
        refine ⟨rfl, lookup_const_zero_getD s0 scopes, ?_⟩
        rw [h]

/-- Witness for C6 at a concrete input: with one scope and a stubbed
enforcer query, the skip-repos row has zero repo counts and the enforcer
entry from the query. -/
theorem c6_skip_repos_witness :
    (mkBreakdownRow "a" 0 0 ⟨1, 2, 3, 4, 5, 6⟩).repos = 0
    ∧ (mkBreakdownRow "a" 0 0 ⟨1, 2, 3, 4, 5, 6⟩).code_repos = 0
    ∧ List.lookup "a"
        ((fun _ : List String => [("a", (⟨1, 2, 3, 4, 5, 6⟩ : EnforcerCounts))])
          ["a"])
      = some ⟨(mkBreakdownRow "a" 0 0 ⟨1, 2, 3, 4, 5, 6⟩).agent,
          (mkBreakdownRow "a" 0 0 ⟨1, 2, 3, 4, 5, 6⟩).kube_enforcer,
          (mkBreakdownRow "a" 0 0 ⟨1, 2, 3, 4, 5, 6⟩).host_enforcer,
          (mkBreakdownRow "a" 0 0 ⟨1, 2, 3, 4, 5, 6⟩).micro_enforcer,
          (mkBreakdownRow "a" 0 0 ⟨1, 2, 3, 4, 5, 6⟩).nano_enforcer,
          (mkBreakdownRow "a" 0 0 ⟨1, 2, 3, 4, 5, 6⟩).pod_enforcer⟩ :=
  (c6_skip_repos ["a"] true true (fun _ => []) (fun _ => []) (fun _ => [])
      (fun _ => [])
      (fun _ => [("a", (⟨1, 2, 3, 4, 5, 6⟩ : EnforcerCounts))])).2
    "a" (mkBreakdownRow "a" 0 0 ⟨1, 2, 3, 4, 5, 6⟩) (by decide)

/-! ## C7: missing CSP_ENDPOINT -/

/-- C7 as stated is false: with credentials present and authentication
succeeding, a run with `CSP_ENDPOINT` unset still performs the
`authenticate` network call — `main` authenticates (source line 598) before
reading `CSP_ENDPOINT` (source line 609) — refuting "without attempting any
network call (in particular, without calling authenticate)". -/
theorem c7_endpoint_check_counterexample :
    MainAction.authCall ∈ (reportingPreflight true true none).1
    ∧ (reportingPreflight true true none).2 = some 1 := by
  decide

/-- C7 amended: with `CSP_ENDPOINT` unset the program always exits with code
1 before running the reporting command, but the endpoint check happens only
after authentication: when credentials are present and authentication
succeeds, the trace is exactly one `authenticate` call followed by the
endpoint configuration error. -/
theorem c7_endpoint_check_amended :
    ∀ (hasCreds authOk : Bool),
      ((reportingPreflight hasCreds authOk none).2 = some 1)
      ∧ ¬(MainAction.runCommand ∈ (reportingPreflight hasCreds authOk none).1)
      ∧ (hasCreds = true → authOk = true →
          (reportingPreflight hasCreds authOk none).1
            = [MainAction.authCall,
               MainAction.reportError
                 "CSP_ENDPOINT environment variable not set"]) := by
  intro hasCreds authOk
  cases hasCreds <;> cases authOk <;>
    exact ⟨by decide, by decide, by decide⟩

/-- Witness for the amended C7: with credentials and successful
authentication, the concrete trace is the authenticate call then the
endpoint error. -/
theorem c7_endpoint_check_amended_witness :
    (reportingPreflight true true none).1
      = [MainAction.authCall,
         MainAction.reportError "CSP_ENDPOINT environment variable not set"] :=
  (c7_endpoint_check_amended true true).2.2 rfl rfl

end AquaLicenseUtil
